import Mathlib

/-!
Verification development for the gmail-backup-manager synchronization engine.

The definitions below are a shallow embedding of the Python sources:
  backend/app/models/sync_session.py      (SyncSession ORM model)
  backend/app/models/email.py             (Email / EmailAttachment ORM models)
  backend/app/services/sync_session_service.py (SyncSessionService)
  backend/app/services/sync_service.py    (OptimizedSyncService)
  backend/app/services/token_refresh_service.py (TokenRefreshService)

Conventions of the embedding:
  * timestamps are seconds since the epoch (Nat, or Int where differences
    may be negative);
  * Python dicts used as registries (_active_syncs, _sync_stop_flags)
    are association lists with get/set/delete helpers;
  * database tables are lists of records; `query(...).filter(id==).first()`
    is List.find?;
  * the Gmail API boundary is an explicit environment (page responses,
    per-attempt fetch outcomes, attachment bytes, token refresh outcomes);
  * Python truthiness of optional strings (None and "" are falsy) is the
    helper pyTruthyStr.
-/

namespace GmailBackup

/-- Lookup in a Python-dict-like association list keyed by Nat. -/
def dictGet {α : Type} (d : List (Nat × α)) (k : Nat) : Option α :=
  (d.find? (fun p => p.1 == k)).map (fun p => p.2)

/-- Python dict assignment `d[k] = v` (overwrites any previous binding). -/
def dictSet {α : Type} (d : List (Nat × α)) (k : Nat) (v : α) : List (Nat × α) :=
  (k, v) :: d.filter (fun p => !(p.1 == k))

/-- Python dict deletion `del d[k]`. -/
def dictDel {α : Type} (d : List (Nat × α)) (k : Nat) : List (Nat × α) :=
  d.filter (fun p => !(p.1 == k))

/-- Python membership test `k in d`. -/
def dictContains {α : Type} (d : List (Nat × α)) (k : Nat) : Bool :=
  (dictGet d k).isSome

/-- Python truthiness of an optional string: None and "" are falsy. -/
def pyTruthyStr : Option String → Bool
  | none => false
  | some s => !(s = "")

/-- Embedding of the SyncSession ORM model (backend/app/models/sync_session.py),
with the columns the verified claims are about. -/
structure SyncSession where
  id : Nat
  user_id : Nat
  sync_type : String
  sync_source : String
  max_emails : Option Nat := none
  start_date : Option String := none
  end_date : Option String := none
  query_filter : Option String := none
  status : String := "started"
  started_at : Nat
  completed_at : Option Nat := none
  last_activity_at : Option Nat := none
  emails_processed : Nat := 0
  emails_synced : Nat := 0
  emails_updated : Nat := 0
  emails_skipped : Nat := 0
  batches_processed : Nat := 0
  total_api_calls : Nat := 0
  total_duration_seconds : Option Nat := none
  error_count : Nat := 0
  last_error_message : Option String := none
  last_error_at : Option Nat := none
  notes : Option String := none
deriving Repr, DecidableEq

/-- `SyncSession.duration_seconds`: final duration when completed, age of the
session otherwise (started_at is always set by the server default). -/
def SyncSession.duration_seconds (s : SyncSession) (now : Nat) : Nat :=
  match s.completed_at with
  | some _ => s.total_duration_seconds.getD 0
  | none => now - s.started_at

/-- The `final_stats` dict accepted by `SyncSession.mark_completed`; the loop
passes emails_synced and emails_processed, other counter keys may appear. -/
structure FinalStats where
  emails_synced : Option Nat := none
  emails_processed : Option Nat := none
  emails_updated : Option Nat := none
  emails_skipped : Option Nat := none
  batches_processed : Option Nat := none
  total_api_calls : Option Nat := none
deriving Repr, DecidableEq

/-- `SyncSession.mark_completed`: set status/completed_at/total_duration_seconds,
then setattr every provided final_stats key. (As in the source,
total_duration_seconds is computed after completed_at has been set, so
duration_seconds takes its `completed_at` branch.) -/
def SyncSession.mark_completed (now : Nat) (final_stats : FinalStats) (s : SyncSession) :
    SyncSession :=
  let s := { s with status := "completed", completed_at := some now }
  let s := { s with total_duration_seconds := some (s.duration_seconds now) }
  { s with
    emails_synced := final_stats.emails_synced.getD s.emails_synced
    emails_processed := final_stats.emails_processed.getD s.emails_processed
    emails_updated := final_stats.emails_updated.getD s.emails_updated
    emails_skipped := final_stats.emails_skipped.getD s.emails_skipped
    batches_processed := final_stats.batches_processed.getD s.batches_processed
    total_api_calls := final_stats.total_api_calls.getD s.total_api_calls }

/-- `SyncSession.mark_failed`: set status/completed_at/total_duration_seconds and,
when a truthy error message is given, the error fields. -/
def SyncSession.mark_failed (now : Nat) (error_message : Option String) (s : SyncSession) :
    SyncSession :=
  let s := { s with status := "failed", completed_at := some now }
  let s := { s with total_duration_seconds := some (s.duration_seconds now) }
  if pyTruthyStr error_message then
    { s with last_error_message := error_message,
             last_error_at := some now,
             error_count := s.error_count + 1 }
  else s

/-- The keyword arguments `SyncSessionService.update_sync_progress` forwards to
`SyncSession.update_progress` (every key is optional; last_error_at is added by
the service together with last_error_message). -/
structure ProgressUpdate where
  emails_processed : Option Nat := none
  emails_synced : Option Nat := none
  emails_updated : Option Nat := none
  emails_skipped : Option Nat := none
  batches_processed : Option Nat := none
  total_api_calls : Option Nat := none
  error_count : Option Nat := none
  last_error_message : Option String := none
  last_error_at : Option Nat := none
deriving Repr, DecidableEq

/-- True when the `update_data` dict the service builds from these arguments
would be empty. -/
def ProgressUpdate.isEmpty (u : ProgressUpdate) : Bool :=
  u.emails_processed.isNone && u.emails_synced.isNone && u.emails_updated.isNone &&
  u.emails_skipped.isNone && u.batches_processed.isNone && u.total_api_calls.isNone &&
  u.error_count.isNone && u.last_error_message.isNone && u.last_error_at.isNone

/-- The `for key, value in kwargs.items(): setattr(self, key, value)` part of
`SyncSession.update_progress`: each supplied field overwrites the column, each
absent field leaves it. -/
def applyProgressFields (u : ProgressUpdate) (s : SyncSession) : SyncSession :=
  { s with
    emails_processed := u.emails_processed.getD s.emails_processed
    emails_synced := u.emails_synced.getD s.emails_synced
    emails_updated := u.emails_updated.getD s.emails_updated
    emails_skipped := u.emails_skipped.getD s.emails_skipped
    batches_processed := u.batches_processed.getD s.batches_processed
    total_api_calls := u.total_api_calls.getD s.total_api_calls
    error_count := u.error_count.getD s.error_count
    last_error_message :=
      match u.last_error_message with
      | some v => some v
      | none => s.last_error_message
    last_error_at :=
      match u.last_error_at with
      | some v => some v
      | none => s.last_error_at }

/-- `SyncSession.update_progress`: setattr every provided field, bump
last_activity_at, and promote status from started to running. -/
def SyncSession.update_progress (now : Nat) (u : ProgressUpdate) (s : SyncSession) :
    SyncSession :=
  let s := applyProgressFields u s
  let s := { s with last_activity_at := some now }
  if s.status = "started" then { s with status := "running" } else s

/-- The sync_sessions table. -/
abbrev SessionStore := List SyncSession

/-- `db.query(SyncSession).filter(SyncSession.id == session_id).first()`. -/
def findSession (store : SessionStore) (session_id : Nat) : Option SyncSession :=
  store.find? (fun s => s.id == session_id)

/-- Commit an in-place mutation of the row with the given id. -/
def updateSession (store : SessionStore) (session_id : Nat) (f : SyncSession → SyncSession) :
    SessionStore :=
  store.map (fun s => if s.id == session_id then f s else s)

namespace SyncSessionService

/-- The optional keyword arguments of `SyncSessionService.update_sync_progress`. -/
structure ProgressArgs where
  emails_processed : Option Nat := none
  emails_synced : Option Nat := none
  emails_updated : Option Nat := none
  emails_skipped : Option Nat := none
  batches_processed : Option Nat := none
  total_api_calls : Option Nat := none
  error_count : Option Nat := none
  last_error_message : Option String := none
deriving Repr, DecidableEq

/-- `SyncSessionService.update_sync_progress`: look the session up (False when
missing), build the update_data dict from the non-None arguments (adding
last_error_at alongside last_error_message), and apply it when non-empty. -/
def update_sync_progress (session_id : Nat) (a : ProgressArgs) (now : Nat)
    (store : SessionStore) : SessionStore × Bool :=
  match findSession store session_id with
  | none => (store, false)
  | some _ =>
    let u : ProgressUpdate :=
      { emails_processed := a.emails_processed
        emails_synced := a.emails_synced
        emails_updated := a.emails_updated
        emails_skipped := a.emails_skipped
        batches_processed := a.batches_processed
        total_api_calls := a.total_api_calls
        error_count := a.error_count
        last_error_message := a.last_error_message
        last_error_at := if a.last_error_message.isSome then some now else none }
    if u.isEmpty then (store, true)
    else (updateSession store session_id (SyncSession.update_progress now u), true)

/-- `SyncSessionService.complete_sync_session`: look the session up (False when
missing) and mark it completed. -/
def complete_sync_session (session_id : Nat) (final_stats : FinalStats) (now : Nat)
    (store : SessionStore) : SessionStore × Bool :=
  match findSession store session_id with
  | none => (store, false)
  | some _ =>
    (updateSession store session_id (SyncSession.mark_completed now final_stats), true)

/-- `SyncSessionService.fail_sync_session`: look the session up (False when
missing) and mark it failed. -/
def fail_sync_session (session_id : Nat) (error_message : Option String) (now : Nat)
    (store : SessionStore) : SessionStore × Bool :=
  match findSession store session_id with
  | none => (store, false)
  | some _ =>
    (updateSession store session_id (SyncSession.mark_failed now error_message), true)

end SyncSessionService

/-- Attachment dict produced by `_download_attachment_as_blob`. The sha256
hexdigest is modeled abstractly as the raw bytes (equal contents give equal
checksums; no claim inspects the digest format). -/
structure AttachmentData where
  filename : String
  content_type : String
  size : Nat
  content_id : Option String
  file_data : List Nat
  file_path : String
  is_inline : Bool
  checksum : List Nat
deriving Repr, DecidableEq

/-- A Gmail API MIME part: mimeType/filename and the body's data,
attachmentId and contentId keys are each optional; nested parts are a list
(an absent `parts` key behaves like an empty list). -/
inductive MimePart where
  | mk (mimeType : Option String) (filename : Option String)
       (bodyData : Option String) (bodyAttachmentId : Option String)
       (bodyContentId : Option String) (parts : List MimePart)
deriving Repr

/-- The part's `mimeType` key. -/
def MimePart.mimeType : MimePart → Option String
  | .mk m _ _ _ _ _ => m

/-- The part's `filename` key. -/
def MimePart.filename : MimePart → Option String
  | .mk _ f _ _ _ _ => f

/-- The part's `body.data` key. -/
def MimePart.bodyData : MimePart → Option String
  | .mk _ _ d _ _ _ => d

/-- The part's `body.attachmentId` key. -/
def MimePart.bodyAttachmentId : MimePart → Option String
  | .mk _ _ _ a _ _ => a

/-- The part's `body.contentId` key. -/
def MimePart.bodyContentId : MimePart → Option String
  | .mk _ _ _ _ c _ => c

/-- The part's nested `parts`. -/
def MimePart.parts : MimePart → List MimePart
  | .mk _ _ _ _ _ ps => ps

/-- `base64.urlsafe_b64decode(data).decode('utf-8')`: MIME body data is carried
already decoded in this model, so the bijective decode step is the identity. -/
def decode_base64 (data : String) : String := data

/-- `_download_attachment_as_blob`: read body.attachmentId (a missing key or a
failing attachments().get call raises, is caught, and yields None), fetch the
bytes through the API boundary, and build the attachment dict. -/
def download_attachment_as_blob (fetchAttachment : String → Option (List Nat))
    (_message_id : String) (part : MimePart) : Option AttachmentData :=
  match part.bodyAttachmentId, part.mimeType, part.filename with
  | some attachment_id, some mime, some filename =>
    match fetchAttachment attachment_id with
    | none => none
    | some file_data =>
      some { filename := filename
             content_type := mime
             size := file_data.length
             content_id := part.bodyContentId
             file_data := file_data
             file_path := "attachments/" ++ filename
             is_inline := part.bodyContentId.isSome
             checksum := file_data }
  | _, _, _ => none

/-- Accumulator of `_extract_content_optimized`: the two nonlocal body
variables (later assignments overwrite) and the appended attachment list. -/
structure ExtractAcc where
  body_plain : String := ""
  body_html : String := ""
  attachments : List AttachmentData := []
deriving Repr, DecidableEq

mutual

/-- `process_part` inside `_extract_content_optimized`: handle this part
(text/plain data, text/html data, or a truthy filename meaning an
attachment), then recurse into the nested parts. -/
def process_part (fetchAttachment : String → Option (List Nat)) (message_id : String)
    (acc : ExtractAcc) : MimePart → ExtractAcc
  | .mk mimeType filename bodyData bodyAttachmentId bodyContentId parts =>
    let p := MimePart.mk mimeType filename bodyData bodyAttachmentId bodyContentId parts
    let acc :=
      if mimeType == some "text/plain" then
        match bodyData with
        | some d => { acc with body_plain := decode_base64 d }
        | none => acc
      else if mimeType == some "text/html" then
        match bodyData with
        | some d => { acc with body_html := decode_base64 d }
        | none => acc
      else if pyTruthyStr filename then
        match download_attachment_as_blob fetchAttachment message_id p with
        | some a => { acc with attachments := acc.attachments ++ [a] }
        | none => acc
      else acc
    process_parts fetchAttachment message_id acc parts

/-- The `for subpart in part['parts']` recursion of `process_part`. -/
def process_parts (fetchAttachment : String → Option (List Nat)) (message_id : String)
    (acc : ExtractAcc) : List MimePart → ExtractAcc
  | [] => acc
  | p :: rest =>
    process_parts fetchAttachment message_id
      (process_part fetchAttachment message_id acc p) rest

end

/-- `_extract_content_optimized`: run process_part on the payload starting from
empty bodies and no attachments. -/
def extract_content_optimized (fetchAttachment : String → Option (List Nat))
    (payload : MimePart) (message_id : String) : ExtractAcc :=
  process_part fetchAttachment message_id {} payload

/-- One `{name, value}` entry of `message['payload']['headers']`. -/
structure Header where
  name : String
  value : String
deriving Repr, DecidableEq

/-- A Gmail API message as consumed by `_parse_email_message`; `headers` stands
for `message['payload']['headers']`. -/
structure GmailMessage where
  id : String
  threadId : Option String
  labelIds : List String
  headers : List Header
  payload : MimePart
deriving Repr

/-- `next((h['value'] for h in headers if h['name'] == name), '')`. -/
def headerValue (headers : List Header) (name : String) : String :=
  match headers.find? (fun h => h.name == name) with
  | some h => h.value
  | none => ""

/-- The `email_part[start:end]` slice between the first `<` and the first `>`
of `_parse_email_list` (an out-of-order pair yields the empty string, as the
Python slice does). -/
def extractAngleAddr (email_part : String) : String :=
  let cs := email_part.toList
  let start := cs.indexOf '<' + 1
  let stop := cs.indexOf '>'
  String.mk ((cs.drop start).take (stop - start))

/-- `_parse_email_list`: split the header on commas; a `Name <addr>` token
contributes the bracketed address, a bare token containing `@` contributes
itself, anything else is dropped; an empty header yields an empty list. -/
def parse_email_list (email_string : String) : List String :=
  if email_string = "" then []
  else
    (email_string.splitOn ",").foldl
      (fun emails email_part =>
        let email_part := email_part.trim
        if email_part.contains '<' && email_part.contains '>' then
          emails ++ [extractAngleAddr email_part]
        else if email_part.contains '@' then
          emails ++ [email_part]
        else emails)
      []

/-- `_parse_date`: an empty header yields None; otherwise the RFC-2822 parse of
the library (the `rfc2822` boundary, returning None on unparsable input). -/
def parse_date (rfc2822 : String → Option Nat) (date_string : String) : Option Nat :=
  if date_string = "" then none else rfc2822 date_string

/-- The dict `_parse_email_message` returns. -/
structure EmailData where
  gmail_id : String
  thread_id : Option String
  subject : String
  sender : String
  recipients : List String
  cc : List String
  bcc : List String
  body_plain : String
  body_html : String
  date_received : Option Nat
  labels : List String
  is_read : Bool
  is_starred : Bool
  is_important : Bool
  is_spam : Bool
  is_trash : Bool
  attachments : List AttachmentData
deriving Repr, DecidableEq

/-- `_parse_email_message`: headers, recipients, date, content and the five
label-derived flags. -/
def parse_email_message (rfc2822 : String → Option Nat)
    (fetchAttachment : String → Option (List Nat)) (message : GmailMessage) : EmailData :=
  let headers := message.headers
  let subject := headerValue headers "Subject"
  let sender := headerValue headers "From"
  let date_str := headerValue headers "Date"
  let to_emails := parse_email_list (headerValue headers "To")
  let cc_emails := parse_email_list (headerValue headers "Cc")
  let bcc_emails := parse_email_list (headerValue headers "Bcc")
  let date_received := parse_date rfc2822 date_str
  let content := extract_content_optimized fetchAttachment message.payload message.id
  let label_ids := message.labelIds
  { gmail_id := message.id
    thread_id := message.threadId
    subject := subject
    sender := sender
    recipients := to_emails
    cc := cc_emails
    bcc := bcc_emails
    body_plain := content.body_plain
    body_html := content.body_html
    date_received := date_received
    labels := label_ids
    is_read := !(label_ids.contains "UNREAD")
    is_starred := label_ids.contains "STARRED"
    is_important := label_ids.contains "IMPORTANT"
    is_spam := label_ids.contains "SPAM"
    is_trash := label_ids.contains "TRASH"
    attachments := content.attachments }

/-- Error classes a `messages().get` call can raise. -/
inductive FetchError where
  | serverError (code : Nat)
  | clientError (code : Nat)
  | notFound
deriving Repr, DecidableEq

/-- The outcome of one `messages().get(...).execute()` attempt. -/
inductive FetchAttempt where
  | ok (message : GmailMessage)
  | err (e : FetchError)

/-- What a run of `_fetch_email_data` did: its return value, how many API
attempts it made, and the backoff delays (seconds) it slept between them. -/
structure FetchTrace where
  result : Option EmailData
  attemptsMade : Nat
  sleeps : List Nat

/-- The `for attempt in range(max_retries)` loop of `_fetch_email_data`,
recursing on the number of remaining iterations: a successful attempt returns
the parsed message; a failed attempt (any exception class) sleeps
`2 ** attempt` seconds and continues unless it was the last one, in which
case None is returned. -/
def fetch_email_data_go (rfc2822 : String → Option Nat)
    (fetchAttachment : String → Option (List Nat)) (oracle : Nat → FetchAttempt)
    (attempt : Nat) : Nat → FetchTrace
  | 0 => { result := none, attemptsMade := attempt, sleeps := [] }
  | remaining + 1 =>
    match oracle attempt with
    | .ok message =>
      { result := some (parse_email_message rfc2822 fetchAttachment message)
        attemptsMade := attempt + 1
        sleeps := [] }
    | .err _ =>
      if remaining = 0 then
        { result := none, attemptsMade := attempt + 1, sleeps := [] }
      else
        let t := fetch_email_data_go rfc2822 fetchAttachment oracle (attempt + 1) remaining
        { t with sleeps := 2 ^ attempt :: t.sleeps }

/-- `max_retries = 3` in `_fetch_email_data`. -/
def max_retries : Nat := 3

/-- `_fetch_email_data`: run the retry loop from attempt 0; the `oracle` gives
the outcome the Gmail API produces for each attempt index. -/
def fetch_email_data (rfc2822 : String → Option Nat)
    (fetchAttachment : String → Option (List Nat)) (oracle : Nat → FetchAttempt) :
    FetchTrace :=
  fetch_email_data_go rfc2822 fetchAttachment oracle 0 max_retries

/-- A row of the `emails` table (backend/app/models/email.py); `gmail_id` has a
unique key. -/
structure EmailRow where
  id : Nat
  gmail_id : String
  thread_id : Option String
  subject : String
  sender : String
  recipients : List String
  cc : List String
  bcc : List String
  body_plain : String
  body_html : String
  date_received : Option Nat
  labels : List String
  is_read : Bool
  is_starred : Bool
  is_important : Bool
  is_spam : Bool
  is_trash : Bool
deriving Repr, DecidableEq

/-- A row of the `email_attachments` table. -/
structure EmailAttachmentRow where
  id : Nat
  email_id : Nat
  filename : String
  content_type : String
  size : Nat
  content_id : Option String
  file_data : List Nat
  file_path : Option String
  is_inline : Bool
  checksum : List Nat
deriving Repr, DecidableEq

/-- The message store: emails and attachments tables with autoincrement ids. -/
structure EmailStore where
  rows : List EmailRow := []
  attachments : List EmailAttachmentRow := []
  next_email_id : Nat := 1
  next_attachment_id : Nat := 1
deriving Repr, DecidableEq

/-- `_process_attachments`: add one attachment row per attachment dict, all
owned by the given email id. -/
def process_attachments (store : EmailStore) (email_id : Nat)
    (atts : List AttachmentData) : EmailStore :=
  atts.foldl
    (fun store a =>
      { store with
        attachments := store.attachments ++
          [{ id := store.next_attachment_id
             email_id := email_id
             filename := a.filename
             content_type := a.content_type
             size := a.size
             content_id := a.content_id
             file_data := a.file_data
             file_path := some a.file_path
             is_inline := a.is_inline
             checksum := a.checksum }]
        next_attachment_id := store.next_attachment_id + 1 })
    store

/-- The `email_model_data` dict of `_process_single_email`, passed to the
`Email(**email_model_data)` constructor. -/
def emailRowOfData (next_id : Nat) (email_data : EmailData) : EmailRow :=
  { id := next_id
    gmail_id := email_data.gmail_id
    thread_id := email_data.thread_id
    subject := email_data.subject
    sender := email_data.sender
    recipients := email_data.recipients
    cc := email_data.cc
    bcc := email_data.bcc
    body_plain := email_data.body_plain
    body_html := email_data.body_html
    date_received := email_data.date_received
    labels := email_data.labels
    is_read := email_data.is_read
    is_starred := email_data.is_starred
    is_important := email_data.is_important
    is_spam := email_data.is_spam
    is_trash := email_data.is_trash }

/-- `_process_single_email`: if a row with this gmail_id exists, return False
(already synced); fetch the message (`fetch` is the outcome of
`_fetch_email_data`, None after exhausted retries); on data, insert the email
row and its attachments in one transaction and return True. The Python
exception branch (rollback, return False) is unreachable in this model because
the fetch boundary already returns None on failure. -/
def process_single_email (fetch : String → Option EmailData) (store : EmailStore)
    (message_id : String) : EmailStore × Bool :=
  if store.rows.any (fun e => e.gmail_id == message_id) then (store, false)
  else
    match fetch message_id with
    | none => (store, false)
    | some email_data =>
      let row := emailRowOfData store.next_email_id email_data
      let store :=
        { store with rows := store.rows ++ [row], next_email_id := store.next_email_id + 1 }
      let store :=
        if email_data.attachments.isEmpty then store
        else process_attachments store row.id email_data.attachments
      (store, true)

/-- The `for message in messages` body of the sync loop: bump batch_processed
before each call, bump batch_synced when `_process_single_email` returned True;
returns (store, batch_synced, batch_processed). -/
def process_batch_messages (fetch : String → Option EmailData) (store : EmailStore)
    (ids : List String) : EmailStore × Nat × Nat :=
  ids.foldl
    (fun acc message_id =>
      let store := acc.1
      let batch_synced := acc.2.1
      let batch_processed := acc.2.2 + 1
      let r := process_single_email fetch store message_id
      if r.2 then (r.1, batch_synced + 1, batch_processed)
      else (r.1, batch_synced, batch_processed))
    (store, 0, 0)

/-- Number of email rows carrying the given gmail_id. -/
def countGmailId (store : EmailStore) (gmail_id : String) : Nat :=
  (store.rows.filter (fun e => e.gmail_id == gmail_id)).length

/-- Step function of `order_by(Email.date_received.desc()).first()` restricted
to rows with a timestamp: keep the row with the larger date (the first one on
ties, as the scan is in table order). -/
def maxDateRow : Option EmailRow → EmailRow → Option EmailRow
  | none, e => some e
  | some best, e =>
    match best.date_received, e.date_received with
    | some b, some d => if d > b then some e else some best
    | _, _ => some best

/-- `db.query(Email).order_by(Email.date_received.desc()).first()`: under
PostgreSQL's default DESC ordering NULL dates sort first, so a row with a NULL
date_received is returned when one exists; otherwise the row with the maximal
timestamp. -/
def selectLastSyncedEmail (rows : List EmailRow) : Option EmailRow :=
  match rows.find? (fun e => e.date_received.isNone) with
  | some e => some e
  | none => rows.foldl maxDateRow none

/-- Lines 109-119 of `sync_user_emails`: the incremental list-query filter is
`after:<timestamp of the last synced email>` when that timestamp exists
(datetimes are always truthy), and absent otherwise. -/
def buildIncrementalQuery (rows : List EmailRow) : Option String :=
  let last_sync_date := (selectLastSyncedEmail rows).bind (fun e => e.date_received)
  match last_sync_date with
  | some t => some ("after:" ++ toString t)
  | none => none

/-- Python truthiness of an optional integer: None and 0 are falsy (the
`if max_emails and ...` guards). -/
def pyTruthyNat : Option Nat → Bool
  | none => false
  | some n => !(n = 0)

/-- The outcome of one `messages().list(...).execute()` call: the raised
exception, or a page of message ids plus whether a nextPageToken came back. -/
inductive PageResult where
  | listError
  | page (ids : List String) (nextPageToken : Bool)
deriving Repr, DecidableEq

/-- How the sync page loop ended: a break (no messages, no next page, or cap
reached), the SyncStopRequested exception, or an unhandled exception. -/
inductive LoopExit where
  | finished
  | stopRequested
  | errorRaised
deriving Repr, DecidableEq

/-- What a sync entry point did: returned a count or raised. -/
inductive SyncResult where
  | returned (n : Nat)
  | raised (msg : String)
deriving Repr, DecidableEq

/-- The orchestrator's mutable world: the module-level `_active_syncs`
(user_id -> session_id) and `_sync_stop_flags` (session_id -> bool) dicts,
the sync_sessions table, and the emails/attachments tables. -/
structure OrchState where
  active_syncs : List (Nat × Nat) := []
  sync_stop_flags : List (Nat × Bool) := []
  sessions : SessionStore := []
  next_session_id : Nat := 1
  emails : EmailStore := {}
deriving Repr, DecidableEq

/-- The environment of one sync invocation: whether authentication and session
creation succeed, the optional max_emails cap, the successive list-call
responses, the index of the batch during which an external `request_stop_sync`
arrives (observed at the following stop check), the outcome of
`_fetch_email_data` per message id, and the wall clock (held fixed). -/
structure SyncEnv where
  authOk : Bool := true
  createSessionOk : Bool := true
  maxEmails : Option Nat := none
  pages : List PageResult := []
  stopRequestAtBatch : Option Nat := none
  fetch : String → Option EmailData := fun _ => none
  clock : Nat := 0

/-- `OptimizedSyncService.is_sync_active`. -/
def is_sync_active (st : OrchState) (user_id : Nat) : Bool :=
  dictContains st.active_syncs user_id

/-- `OptimizedSyncService.get_active_sync_session_id`. -/
def get_active_sync_session_id (st : OrchState) (user_id : Nat) : Option Nat :=
  dictGet st.active_syncs user_id

/-- `OptimizedSyncService.request_stop_sync`: set the stop flag of the
account's registered session if one exists; report whether one was found. -/
def request_stop_sync (st : OrchState) (user_id : Nat) : OrchState × Bool :=
  match dictGet st.active_syncs user_id with
  | some session_id =>
    ({ st with sync_stop_flags := dictSet st.sync_stop_flags session_id true }, true)
  | none => (st, false)

/-- A fresh `SyncSessionService.create_sync_session` row (status started,
zeroed counters). -/
def newSyncSession (id user_id : Nat) (sync_type sync_source : String)
    (max_emails : Option Nat) (start_date : Option String) (query_filter : Option String)
    (notes : Option String) (now : Nat) : SyncSession :=
  { id := id
    user_id := user_id
    sync_type := sync_type
    sync_source := sync_source
    max_emails := max_emails
    start_date := start_date
    query_filter := query_filter
    notes := notes
    started_at := now }

/-- The first try block of `sync_user_emails` (lines 82-104): the
already-active check raises, but the surrounding `except Exception` catches it
(and any create_sync_session failure) and continues with sync_session = None;
otherwise the session row is created and the account and stop-flag registries
are populated. -/
def startIncrementalSession (env : SyncEnv) (user_id : Nat) (st : OrchState) :
    OrchState × Option SyncSession :=
  if is_sync_active st user_id then (st, none)
  else if !env.createSessionOk then (st, none)
  else
    let row := newSyncSession st.next_session_id user_id "incremental" "api"
      env.maxEmails none none (some "Incremental sync from last synced email") env.clock
    ({ st with
        sessions := st.sessions ++ [row]
        next_session_id := st.next_session_id + 1
        active_syncs := dictSet st.active_syncs user_id row.id
        sync_stop_flags := dictSet st.sync_stop_flags row.id false },
     some row)

/-- The direct query_filter update of lines 130-134. -/
def setQueryFilter (store : SessionStore) (session_id : Nat) (q : Option String) :
    SessionStore :=
  updateSession store session_id (fun s => { s with query_filter := q })

/-- The `while True` page loop of `sync_user_emails` (lines 138-211), recursing
over the successive list-call responses. `sessionOpt` is the detached
sync_session object created before the loop (so its counter snapshot, not the
database row, feeds the `(sync_session.batches_processed or 0) + 1`
expressions). An exhausted response list behaves like a response with no
messages. The batch_size arithmetic of line 140 only shapes the request and is
subsumed by the environment's page contents. -/
def syncLoop (env : SyncEnv) (sessionOpt : Option SyncSession) (batchIdx : Nat)
    (st : OrchState) (emails_synced : Nat) : List PageResult → OrchState × Nat × LoopExit
  | [] => (st, emails_synced, .finished)
  | .listError :: _ => (st, emails_synced, .errorRaised)
  | .page ids nextPageToken :: rest =>
    if ids.isEmpty then (st, emails_synced, .finished)
    else
      let r := process_batch_messages env.fetch st.emails ids
      let st := { st with emails := r.1 }
      let batch_synced := r.2.1
      let batch_processed := r.2.2
      let emails_synced := emails_synced + batch_synced
      let st :=
        match sessionOpt with
        | some snap =>
          let a : SyncSessionService.ProgressArgs :=
            { emails_processed := some (emails_synced + (batch_processed - batch_synced))
              emails_synced := some emails_synced
              emails_skipped := some (batch_processed - batch_synced)
              batches_processed := some (snap.batches_processed + 1)
              total_api_calls := some (snap.total_api_calls + 1) }
          { st with
            sessions :=
              (SyncSessionService.update_sync_progress snap.id a env.clock st.sessions).1 }
        | none => st
      let st :=
        match sessionOpt with
        | some snap =>
          if env.stopRequestAtBatch == some batchIdx then
            { st with sync_stop_flags := dictSet st.sync_stop_flags snap.id true }
          else st
        | none => st
      let stopped :=
        match sessionOpt with
        | some snap => dictGet st.sync_stop_flags snap.id == some true
        | none => false
      if stopped then (st, emails_synced, .stopRequested)
      else if !nextPageToken then (st, emails_synced, .finished)
      else if pyTruthyNat env.maxEmails && decide (env.maxEmails.getD 0 ≤ emails_synced) then
        (st, emails_synced, .finished)
      else syncLoop env sessionOpt (batchIdx + 1) st emails_synced rest

/-- The `finally` block of `sync_user_emails` (lines 239-245): when a session
was created and the account is registered, delete the account's registry entry
and, nested inside, the session's stop flag when present. -/
def cleanupSyncTracking (sessionOpt : Option SyncSession) (user_id : Nat)
    (st : OrchState) : OrchState :=
  match sessionOpt with
  | some snap =>
    if dictContains st.active_syncs user_id then
      let st := { st with active_syncs := dictDel st.active_syncs user_id }
      if dictContains st.sync_stop_flags snap.id then
        { st with sync_stop_flags := dictDel st.sync_stop_flags snap.id }
      else st
    else st
  | none => st

/-- `OptimizedSyncService.sync_user_emails` (incremental sync): authenticate,
attempt session creation/registration, compute the incremental query and stamp
it on the row, run the page loop, then dispatch on its exit: SyncStopRequested
marks the session failed and rewrites its status to cancelled and returns;
any other exception marks the session failed and re-raises; the normal exit
completes the session — with the registry cleanup of the `finally` block
running before the code that follows the try statement. -/
def sync_user_emails (env : SyncEnv) (user_id : Nat) (st : OrchState) :
    OrchState × SyncResult :=
  if !env.authOk then (st, .raised "Failed to authenticate with Gmail")
  else
    let r0 := startIncrementalSession env user_id st
    let st := r0.1
    let sessionOpt := r0.2
    let query := buildIncrementalQuery st.emails.rows
    let st :=
      match sessionOpt with
      | some snap => { st with sessions := setQueryFilter st.sessions snap.id query }
      | none => st
    let r := syncLoop env sessionOpt 0 st 0 env.pages
    let st := r.1
    let emails_synced := r.2.1
    match r.2.2 with
    | .stopRequested =>
      let st :=
        match sessionOpt with
        | some snap =>
          let sess := (SyncSessionService.fail_sync_session snap.id
            (some "Sync stopped by user request") env.clock st.sessions).1
          { st with
            sessions := updateSession sess snap.id (fun s => { s with status := "cancelled" }) }
        | none => st
      (cleanupSyncTracking sessionOpt user_id st, .returned emails_synced)
    | .errorRaised =>
      let st :=
        match sessionOpt with
        | some snap =>
          { st with
            sessions := (SyncSessionService.fail_sync_session snap.id
              (some "list error") env.clock st.sessions).1 }
        | none => st
      (cleanupSyncTracking sessionOpt user_id st, .raised "list error")
    | .finished =>
      let st := cleanupSyncTracking sessionOpt user_id st
      let st :=
        match sessionOpt with
        | some snap =>
          { st with
            sessions := (SyncSessionService.complete_sync_session snap.id
              { emails_synced := some emails_synced, emails_processed := some emails_synced }
              env.clock st.sessions).1 }
        | none => st
      (st, .returned emails_synced)

/-- `OptimizedSyncService.sync_user_emails_full` (lines 351-435): authenticate
and create a `full` session row — with no already-active check, no registry
registration, no progress updates, no stop checks, and no terminal transition:
the loop body (lines 382-428) is the incremental page loop run without a
tracked session, and the session row is left as created. -/
def sync_user_emails_full (env : SyncEnv) (user_id : Nat) (st : OrchState) :
    OrchState × SyncResult :=
  if !env.authOk then (st, .raised "Failed to authenticate with Gmail")
  else
    let st :=
      if env.createSessionOk then
        let row := newSyncSession st.next_session_id user_id "full" "api"
          env.maxEmails none none (some "Full sync - fetching all available emails") env.clock
        { st with sessions := st.sessions ++ [row], next_session_id := st.next_session_id + 1 }
      else st
    let r := syncLoop env none 0 st 0 env.pages
    match r.2.2 with
    | .errorRaised => (r.1, .raised "list error")
    | _ => (r.1, .returned r.2.1)

/-- Number of sessions of the account whose status is in {started, running}. -/
def activeSessionCount (store : SessionStore) (user_id : Nat) : Nat :=
  (store.filter (fun s =>
    s.user_id == user_id && (s.status == "started" || s.status == "running"))).length

/-- The columns of the users table the token refresher touches
(backend/app/models/user.py). -/
structure User where
  id : Nat
  email : String
  gmail_access_token : Option String := none
  gmail_refresh_token : Option String := none
  gmail_token_expiry : Option Int := none
deriving Repr, DecidableEq

/-- The outcome of `creds.refresh(Request())`: success carries the new access
token, the (possibly absent) rotated refresh token and the new expiry;
RefreshError is the revoked-token failure; any other exception is otherError. -/
inductive RefreshOutcome where
  | success (token : String) (refresh_token : Option String) (expiry : Option Int)
  | refreshError
  | otherError
deriving Repr, DecidableEq

namespace TokenRefreshService

/-- `self.refresh_threshold = 600` seconds (10 minutes). -/
def refresh_threshold : Int := 600

/-- `TokenRefreshService._refresh_user_token_if_needed`: skip accounts with no
known expiry; refresh exactly when time-until-expiry is below the threshold;
on success persist the new access token and expiry and overwrite the refresh
token only when a truthy one came back; failures change nothing. The Bool
reports whether a refresh was attempted. -/
def refresh_user_token_if_needed (now : Int) (outcome : RefreshOutcome) (user : User) :
    User × Bool :=
  match user.gmail_token_expiry with
  | none => (user, false)
  | some expiry =>
    let time_until_expiry := expiry - now
    if time_until_expiry < refresh_threshold then
      match outcome with
      | .success token refresh_token expiry2 =>
        ({ user with
            gmail_access_token := some token
            gmail_refresh_token :=
              if pyTruthyStr refresh_token then refresh_token else user.gmail_refresh_token
            gmail_token_expiry := expiry2 },
         true)
      | .refreshError => (user, true)
      | .otherError => (user, true)
    else (user, false)

/-- `TokenRefreshService._check_and_refresh_tokens`: visit every account whose
access token is stored (the query filters on gmail_access_token IS NOT NULL)
and run the per-account refresh; other accounts are untouched. -/
def check_and_refresh_tokens (now : Int) (outcomes : Nat → RefreshOutcome)
    (users : List User) : List User :=
  users.map (fun u =>
    if u.gmail_access_token.isSome then (refresh_user_token_if_needed now (outcomes u.id) u).1
    else u)

end TokenRefreshService

/-- The id and the six progress counters of a session row. -/
def counterView (s : SyncSession) : Nat × Nat × Nat × Nat × Nat × Nat × Nat :=
  (s.id, s.emails_processed, s.emails_synced, s.emails_updated, s.emails_skipped,
   s.batches_processed, s.total_api_calls)

/-- Example: an empty MIME payload. -/
def emptyPayload : MimePart := .mk none none none none none []

/-- Example: a minimal Gmail message. -/
def msgExample : GmailMessage :=
  { id := "m1", threadId := none, labelIds := [], headers := [], payload := emptyPayload }

/-- Example: parsed data of message m1. -/
def emailDataExample : EmailData :=
  { gmail_id := "m1", thread_id := none, subject := "", sender := "", recipients := []
    cc := [], bcc := [], body_plain := "", body_html := "", date_received := some 10
    labels := [], is_read := true, is_starred := false, is_important := false
    is_spam := false, is_trash := false, attachments := [] }

/-- Example fetch boundary that always yields the data of m1. -/
def fetchExample : String → Option EmailData := fun _ => some emailDataExample

/-- Example fetch-attempt oracle: the first attempt fails with HTTP 404 (a
non-transient client error), the second succeeds. -/
def oracleClient404 : Nat → FetchAttempt := fun attempt =>
  if attempt = 0 then .err (.clientError 404) else .ok msgExample

/-- Example fetch-attempt oracle on which every attempt fails with HTTP 500. -/
def oracleAllErr : Nat → FetchAttempt := fun _ => .err (.serverError 500)

/-- Example RFC-2822 boundary that parses nothing. -/
def rfcNone : String → Option Nat := fun _ => none

/-- Example attachment boundary that returns no bytes. -/
def attNone : String → Option (List Nat) := fun _ => none

/-- Example: a failed (terminal) session row. -/
def sessionFailedExample : SyncSession :=
  { id := 1, user_id := 7, sync_type := "incremental", sync_source := "api"
    status := "failed", started_at := 0 }

/-- Example: a running incremental session of account 7, registered in both
registries. -/
def sessionRunningExample : SyncSession :=
  { id := 1, user_id := 7, sync_type := "incremental", sync_source := "api"
    status := "running", started_at := 0 }

/-- Example state: account 7 has an incremental sync mid-flight. -/
def stateActiveExample : OrchState :=
  { active_syncs := [(7, 1)], sync_stop_flags := [(1, false)]
    sessions := [sessionRunningExample], next_session_id := 2 }

/-- Example environment: authentication and session creation succeed and the
list call returns a single empty page. -/
def envEmptyPage : SyncEnv := { pages := [.page [] false] }

/-- Example: an email row stored with a NULL date_received (the fate of an
unparsable Date header). -/
def rowNullDate : EmailRow :=
  { id := 1, gmail_id := "m0", thread_id := none, subject := "", sender := ""
    recipients := [], cc := [], bcc := [], body_plain := "", body_html := ""
    date_received := none, labels := [], is_read := true, is_starred := false
    is_important := false, is_spam := false, is_trash := false }

/-- Example: an email row received at timestamp 5. -/
def rowDated5 : EmailRow :=
  { rowNullDate with id := 2, gmail_id := "m5", date_received := some 5 }

/-- Example: an email row received at timestamp 9. -/
def rowDated9 : EmailRow :=
  { rowNullDate with id := 3, gmail_id := "m9", date_received := some 9 }

/-- Example user whose token expires 100 seconds after time 0. -/
def userExample : User :=
  { id := 1, email := "user@example.com", gmail_access_token := some "tok"
    gmail_refresh_token := some "ref", gmail_token_expiry := some 100 }

theorem dictGet_del_self {α : Type} (d : List (Nat × α)) (k : Nat) :
    dictGet (dictDel d k) k = none := by
  unfold dictGet dictDel
  have h : (d.filter (fun p => !(p.1 == k))).find? (fun p => p.1 == k) = none := by
    rw [List.find?_eq_none]
    intro x hx
    have hx2 := (List.mem_filter.mp hx).2
    simp at hx2 ⊢
    exact hx2
  rw [h]
  rfl

theorem dictContains_del_self {α : Type} (d : List (Nat × α)) (k : Nat) :
    dictContains (dictDel d k) k = false := by
  unfold dictContains
  rw [dictGet_del_self]
  rfl

theorem dictGet_set_self {α : Type} (d : List (Nat × α)) (k : Nat) (v : α) :
    dictGet (dictSet d k v) k = some v := by
  unfold dictGet dictSet
  simp [List.find?]

theorem dictContains_set_self {α : Type} (d : List (Nat × α)) (k : Nat) (v : α) :
    dictContains (dictSet d k v) k = true := by
  unfold dictContains
  rw [dictGet_set_self]
  rfl

theorem fail_sync_session_counterView (store : SessionStore) (sid : Nat)
    (m : Option String) (n : Nat) :
    ((SyncSessionService.fail_sync_session sid m n store).1.map counterView) =
      store.map counterView := by
  unfold SyncSessionService.fail_sync_session
  cases h : findSession store sid with
  | none => rfl
  | some s₀ =>
    dsimp only
    unfold updateSession
    rw [List.map_map]
    apply List.map_congr_left
    intro a _
    by_cases hid : a.id = sid
    · simp only [Function.comp_apply, beq_iff_eq, hid, if_true]
      unfold SyncSession.mark_failed counterView
      dsimp only
      split <;> rfl
    · simp [Function.comp_apply, beq_iff_eq, hid]

/-- C4 (amended): the status transitions the tracker operations implement —
update_progress promotes started to running (on any applied update) and never
changes any other status, including terminal ones; but mark_completed and
mark_failed set the status unconditionally, whatever it was before. -/
theorem sync_session_status_machine (s : SyncSession) (now : Nat) (u : ProgressUpdate)
    (fs : FinalStats) (msg : Option String) :
    (s.update_progress now u).status = (if s.status = "started" then "running" else s.status) ∧
    (s.mark_completed now fs).status = "completed" ∧
    (s.mark_failed now msg).status = "failed" := by
  refine ⟨?_, rfl, ?_⟩
  · unfold SyncSession.update_progress
    dsimp only
    split
    · next h =>
      have h2 : s.status = "started" := h
      rw [if_pos h2]
    · next h =>
      have h2 : ¬(s.status = "started") := h
      rw [if_neg h2]
      rfl
  · unfold SyncSession.mark_failed
    dsimp only
    split <;> rfl

/-- C4 (counterexample): a session whose status is the terminal "failed" has
its status overwritten to "completed" by a subsequent complete_sync_session
call — terminal states are not final. -/
theorem sync_terminal_status_not_final :
    sessionFailedExample.status = "failed" ∧
    ((SyncSessionService.complete_sync_session 1 {} 5 [sessionFailedExample]).1.map
        (fun s => s.status)) = ["completed"] :=
  ⟨rfl, rfl⟩

/-- C7: the five boolean flags produced by _parse_email_message are exactly the
stated functions of the message's label ids, and the raw label set is stored
alongside them. -/
theorem parse_email_message_flags (rfc2822 : String → Option Nat)
    (fetchAttachment : String → Option (List Nat)) (message : GmailMessage) :
    (parse_email_message rfc2822 fetchAttachment message).is_read
        = !(message.labelIds.contains "UNREAD") ∧
    (parse_email_message rfc2822 fetchAttachment message).is_starred
        = message.labelIds.contains "STARRED" ∧
    (parse_email_message rfc2822 fetchAttachment message).is_important
        = message.labelIds.contains "IMPORTANT" ∧
    (parse_email_message rfc2822 fetchAttachment message).is_spam
        = message.labelIds.contains "SPAM" ∧
    (parse_email_message rfc2822 fetchAttachment message).is_trash
        = message.labelIds.contains "TRASH" ∧
    (parse_email_message rfc2822 fetchAttachment message).labels = message.labelIds :=
  ⟨rfl, rfl, rfl, rfl, rfl, rfl⟩

/-- C8: mark_failed changes only status, completion timestamp, total duration
and the error fields: the six progress counters and every identification or
parameter column keep their values, and fail_sync_session preserves the
(id, counters) view of the whole session table. -/
theorem mark_failed_frame (s : SyncSession) (now : Nat) (msg : Option String) :
    ((s.mark_failed now msg).emails_processed = s.emails_processed ∧
     (s.mark_failed now msg).emails_synced = s.emails_synced ∧
     (s.mark_failed now msg).emails_updated = s.emails_updated ∧
     (s.mark_failed now msg).emails_skipped = s.emails_skipped ∧
     (s.mark_failed now msg).batches_processed = s.batches_processed ∧
     (s.mark_failed now msg).total_api_calls = s.total_api_calls) ∧
    ((s.mark_failed now msg).status = "failed" ∧
     (s.mark_failed now msg).completed_at = some now) ∧
    ((s.mark_failed now msg).id = s.id ∧
     (s.mark_failed now msg).user_id = s.user_id ∧
     (s.mark_failed now msg).sync_type = s.sync_type ∧
     (s.mark_failed now msg).sync_source = s.sync_source ∧
     (s.mark_failed now msg).max_emails = s.max_emails ∧
     (s.mark_failed now msg).start_date = s.start_date ∧
     (s.mark_failed now msg).end_date = s.end_date ∧
     (s.mark_failed now msg).query_filter = s.query_filter ∧
     (s.mark_failed now msg).started_at = s.started_at ∧
     (s.mark_failed now msg).last_activity_at = s.last_activity_at ∧
     (s.mark_failed now msg).notes = s.notes) ∧
    (∀ (store : SessionStore) (sid : Nat) (m : Option String) (n : Nat),
      ((SyncSessionService.fail_sync_session sid m n store).1.map counterView) =
        store.map counterView) := by
  refine ⟨⟨?_, ?_, ?_, ?_, ?_, ?_⟩, ⟨?_, ?_⟩, ⟨?_, ?_, ?_, ?_, ?_, ?_, ?_, ?_, ?_, ?_, ?_⟩,
    fun store sid m n => fail_sync_session_counterView store sid m n⟩
  all_goals (unfold SyncSession.mark_failed; dsimp only; split <;> rfl)

/-- C10: each tracker operation called with a session id that matches no stored
session returns False and leaves the session table unchanged. -/
theorem tracker_ops_missing_session (store : SessionStore) (sid : Nat)
    (a : SyncSessionService.ProgressArgs) (fs : FinalStats) (msg : Option String) (now : Nat)
    (h : findSession store sid = none) :
    SyncSessionService.update_sync_progress sid a now store = (store, false) ∧
    SyncSessionService.complete_sync_session sid fs now store = (store, false) ∧
    SyncSessionService.fail_sync_session sid msg now store = (store, false) := by
  unfold SyncSessionService.update_sync_progress SyncSessionService.complete_sync_session
    SyncSessionService.fail_sync_session
  rw [h]
  exact ⟨rfl, rfl, rfl⟩

/-- C10 (witness): the three tracker operations on an empty session table. -/
theorem tracker_ops_missing_session_witness :
    SyncSessionService.update_sync_progress 1 {} 0 [] = ([], false) ∧
    SyncSessionService.complete_sync_session 1 {} 0 [] = ([], false) ∧
    SyncSessionService.fail_sync_session 1 none 0 [] = ([], false) :=
  tracker_ops_missing_session [] 1 {} {} none 0 rfl

theorem process_attachments_rows (atts : List AttachmentData) :
    ∀ (st : EmailStore) (eid : Nat), (process_attachments st eid atts).rows = st.rows := by
  induction atts with
  | nil => intro st eid; rfl
  | cons a rest ih =>
    intro st eid
    unfold process_attachments
    rw [List.foldl_cons]
    exact ih _ eid

theorem process_single_email_present (fetch : String → Option EmailData)
    (st : EmailStore) (message_id : String)
    (hmem : st.rows.any (fun e => e.gmail_id == message_id) = true) :
    process_single_email fetch st message_id = (st, false) := by
  unfold process_single_email
  simp [hmem]

theorem process_batch_single (fetch : String → Option EmailData) (st : EmailStore)
    (message_id : String) (h2 : process_single_email fetch st message_id = (st, false)) :
    process_batch_messages fetch st [message_id] = (st, 0, 1) := by
  unfold process_batch_messages
  rw [List.foldl_cons]
  dsimp only
  rw [h2]
  rfl

theorem process_single_email_success_rows (fetch : String → Option EmailData)
    (store : EmailStore) (message_id : String) (d : EmailData)
    (hany : store.rows.any (fun e => e.gmail_id == message_id) = false)
    (hf : fetch message_id = some d) :
    (process_single_email fetch store message_id).1.rows
      = store.rows ++ [emailRowOfData store.next_email_id d] := by
  unfold process_single_email
  rw [hf]
  simp only [hany, Bool.false_eq_true, if_false]
  split
  · rfl
  · rw [process_attachments_rows]

/-- C2: once `_process_single_email` has successfully persisted a message id
(the fetch boundary returning it under that very gmail id, as the remote get
contract guarantees), the store holds exactly one row with that gmail id;
reprocessing the same id leaves the store untouched and returns False
("already synced"), and the surrounding batch loop counts that reprocessing
as processed-but-not-synced — i.e. as skipped, since the progress update
reports emails_skipped = batch_processed - batch_synced = 1 - 0. -/
theorem process_single_email_idempotent (fetch : String → Option EmailData)
    (store : EmailStore) (message_id : String)
    (hid : ∀ d, fetch message_id = some d → d.gmail_id = message_id)
    (h : (process_single_email fetch store message_id).2 = true) :
    countGmailId (process_single_email fetch store message_id).1 message_id = 1 ∧
    process_single_email fetch (process_single_email fetch store message_id).1 message_id =
      ((process_single_email fetch store message_id).1, false) ∧
    process_batch_messages fetch (process_single_email fetch store message_id).1 [message_id] =
      ((process_single_email fetch store message_id).1, 0, 1) := by
  cases hany : store.rows.any (fun e => e.gmail_id == message_id) with
  | true =>
    rw [process_single_email_present fetch store message_id hany] at h
    simp at h
  | false =>
    cases hf : fetch message_id with
    | none =>
      exfalso
      unfold process_single_email at h
      rw [hf] at h
      simp [hany] at h
    | some d =>
      have hd : d.gmail_id = message_id := hid d hf
      have hrows := process_single_email_success_rows fetch store message_id d hany hf
      have hmem : (process_single_email fetch store message_id).1.rows.any
          (fun e => e.gmail_id == message_id) = true := by
        rw [hrows, List.any_append]
        simp [emailRowOfData, hd]
      have h2 := process_single_email_present fetch
        (process_single_email fetch store message_id).1 message_id hmem
      refine ⟨?_, h2, process_batch_single fetch _ message_id h2⟩
      unfold countGmailId
      rw [hrows, List.filter_append]
      have hnil : store.rows.filter (fun e => e.gmail_id == message_id) = [] := by
        rw [List.filter_eq_nil_iff]
        intro e he
        exact (List.any_eq_false.mp hany) e he
      rw [hnil]
      simp [emailRowOfData, hd]

/-- C2 (witness): message m1 persisted into the empty store through a fetch
boundary that always returns m1's data, then reprocessed. -/
theorem process_single_email_idempotent_witness :
    countGmailId (process_single_email fetchExample {} "m1").1 "m1" = 1 ∧
    process_single_email fetchExample (process_single_email fetchExample {} "m1").1 "m1" =
      ((process_single_email fetchExample {} "m1").1, false) ∧
    process_batch_messages fetchExample (process_single_email fetchExample {} "m1").1 ["m1"] =
      ((process_single_email fetchExample {} "m1").1, 0, 1) :=
  process_single_email_idempotent fetchExample {} "m1"
    (fun d hd => by
      have h1 : emailDataExample = d := Option.some.inj hd
      rw [← h1]
      rfl)
    rfl

/-- C5 (counterexample): a fetch whose first attempt fails with HTTP 404 — a
non-transient client error — is retried rather than propagated: the code makes
a second attempt (sleeping the 1-second backoff) and returns that attempt's
data, while the claim requires non-transient errors to propagate immediately
with no retry. -/
theorem fetch_retries_non_transient_error :
    (fetch_email_data rfcNone attNone oracleClient404).attemptsMade = 2 ∧
    (fetch_email_data rfcNone attNone oracleClient404).result.isSome = true ∧
    (fetch_email_data rfcNone attNone oracleClient404).sleeps = [1] :=
  ⟨rfl, rfl, rfl⟩

/-- C5 (amended): `_fetch_email_data` retries any failed attempt — transient or
not — making at most 3 attempts in total, with the backoff delay doubling from
1s to 2s between consecutive attempts; after a 3rd consecutive failure it
returns None instead of raising, so the message is left unpersisted and
reported as not-synced while the batch loop still processes every id it was
given. -/
theorem fetch_email_data_retry_policy (rfc2822 : String → Option Nat)
    (fetchAttachment : String → Option (List Nat)) (oracle : Nat → FetchAttempt) :
    (fetch_email_data rfc2822 fetchAttachment oracle).attemptsMade ≤ 3 ∧
    ((∀ i, i < 3 → ∃ e, oracle i = FetchAttempt.err e) →
      (fetch_email_data rfc2822 fetchAttachment oracle).result = none ∧
      (fetch_email_data rfc2822 fetchAttachment oracle).attemptsMade = 3 ∧
      (fetch_email_data rfc2822 fetchAttachment oracle).sleeps = [1, 2]) ∧
    (∀ (fetch : String → Option EmailData) (store : EmailStore) (message_id : String),
      fetch message_id = none →
      process_single_email fetch store message_id = (store, false)) ∧
    (∀ (fetch : String → Option EmailData) (store : EmailStore) (ids : List String),
      (process_batch_messages fetch store ids).2.2 = ids.length) := by
  refine ⟨?_, ?_, ?_, ?_⟩
  · unfold fetch_email_data max_retries
    cases h0 : oracle 0 with
    | ok m => simp [fetch_email_data_go, h0]
    | err e0 =>
      cases h1 : oracle 1 with
      | ok m => simp [fetch_email_data_go, h0, h1]
      | err e1 =>
        cases h2 : oracle 2 with
        | ok m => simp [fetch_email_data_go, h0, h1, h2]
        | err e2 => simp [fetch_email_data_go, h0, h1, h2]
  · intro hall
    obtain ⟨e0, h0⟩ := hall 0 (by omega)
    obtain ⟨e1, h1⟩ := hall 1 (by omega)
    obtain ⟨e2, h2⟩ := hall 2 (by omega)
    unfold fetch_email_data max_retries
    refine ⟨?_, ?_, ?_⟩ <;> simp [fetch_email_data_go, h0, h1, h2]
  · intro fetch store message_id hnone
    unfold process_single_email
    rw [hnone]
    split <;> rfl
  · intro fetch store ids
    have general : ∀ (l : List String) (st : EmailStore) (s p : Nat),
        (l.foldl
          (fun acc message_id =>
            let store := acc.1
            let batch_synced := acc.2.1
            let batch_processed := acc.2.2 + 1
            let r := process_single_email fetch store message_id
            if r.2 then (r.1, batch_synced + 1, batch_processed)
            else (r.1, batch_synced, batch_processed))
          (st, s, p)).2.2 = p + l.length := by
      intro l
      induction l with
      | nil => intro st s p; simp
      | cons x rest ih =>
        intro st s p
        rw [List.foldl_cons]
        dsimp only
        cases hr : (process_single_email fetch st x).2 with
        | true =>
          simp only [hr, if_true]
          rw [ih]
          simp only [List.length_cons]
          omega
        | false =>
          simp only [hr, Bool.false_eq_true, if_false]
          rw [ih]
          simp only [List.length_cons]
          omega
    unfold process_batch_messages
    rw [general ids store 0 0]
    omega

/-- C5 (witness): three consecutive 500 failures exhaust the retries with
backoff delays 1s and 2s and yield None; a None fetch leaves the store
untouched; a two-id batch is processed end to end. -/
theorem fetch_email_data_retry_policy_witness :
    (fetch_email_data rfcNone attNone oracleAllErr).attemptsMade ≤ 3 ∧
    ((fetch_email_data rfcNone attNone oracleAllErr).result = none ∧
     (fetch_email_data rfcNone attNone oracleAllErr).attemptsMade = 3 ∧
     (fetch_email_data rfcNone attNone oracleAllErr).sleeps = [1, 2]) ∧
    process_single_email (fun _ => none) {} "m1" = ({}, false) ∧
    (process_batch_messages fetchExample {} ["m1", "m2"]).2.2 = 2 := by
  have h := fetch_email_data_retry_policy rfcNone attNone oracleAllErr
  exact ⟨h.1, h.2.1 (fun i _ => ⟨.serverError 500, rfl⟩),
    h.2.2.1 (fun _ => none) {} "m1" rfl, h.2.2.2 fetchExample {} ["m1", "m2"]⟩

theorem foldl_maxDateRow_spec (l : List EmailRow) :
    ∀ (b : EmailRow), (∀ e ∈ l, e.date_received.isSome = true) →
      b.date_received.isSome = true →
      ∃ r, l.foldl maxDateRow (some b) = some r ∧
        (r ∈ l ∨ r = b) ∧ r.date_received.isSome = true ∧
        b.date_received.getD 0 ≤ r.date_received.getD 0 ∧
        ∀ e2 ∈ l, e2.date_received.getD 0 ≤ r.date_received.getD 0 := by
  induction l with
  | nil =>
    intro b _ hb
    exact ⟨b, rfl, Or.inr rfl, hb, Nat.le_refl _, by intro e2 he2; cases he2⟩
  | cons e rest ih =>
    intro b hall hb
    obtain ⟨tb, htb⟩ := Option.isSome_iff_exists.mp hb
    have he : e.date_received.isSome = true := hall e (List.mem_cons_self e rest)
    obtain ⟨te, hte⟩ := Option.isSome_iff_exists.mp he
    have hallr : ∀ x ∈ rest, x.date_received.isSome = true :=
      fun x hx => hall x (List.mem_cons_of_mem e hx)
    rw [List.foldl_cons]
    by_cases hgt : te > tb
    · have hstep : maxDateRow (some b) e = some e := by
        simp only [maxDateRow]
        rw [htb, hte]
        simp [hgt]
      rw [hstep]
      obtain ⟨r, hfold, hmem, hrsome, hler, hbound⟩ := ih e hallr he
      refine ⟨r, hfold, ?_, hrsome, ?_, ?_⟩
      · cases hmem with
        | inl hm => exact Or.inl (List.mem_cons_of_mem e hm)
        | inr hm => exact Or.inl (hm ▸ List.mem_cons_self e rest)
      · rw [htb]
        rw [hte] at hler
        exact Nat.le_trans (Nat.le_of_lt hgt) hler
      · intro e2 he2
        cases List.mem_cons.mp he2 with
        | inl hm => exact hm ▸ hler
        | inr hm => exact hbound e2 hm
    · have hstep : maxDateRow (some b) e = some b := by
        simp only [maxDateRow]
        rw [htb, hte]
        simp [hgt]
      rw [hstep]
      obtain ⟨r, hfold, hmem, hrsome, hler, hbound⟩ := ih b hallr hb
      refine ⟨r, hfold, ?_, hrsome, hler, ?_⟩
      · cases hmem with
        | inl hm => exact Or.inl (List.mem_cons_of_mem e hm)
        | inr hm => exact Or.inr hm
      · intro e2 he2
        cases List.mem_cons.mp he2 with
        | inl hm =>
          subst hm
          rw [hte]
          rw [htb] at hler
          exact Nat.le_trans (Nat.le_of_not_lt hgt) hler
        | inr hm => exact hbound e2 hm

/-- C6 (counterexample): a store containing one message whose date_received is
NULL (an unparsable Date header is persisted without a timestamp) is nonempty,
yet the incremental list-query filter is absent, where the claim requires an
"after T" filter for every nonempty store. -/
theorem incremental_query_absent_for_nonempty_store :
    ([rowNullDate] : List EmailRow) ≠ [] ∧ buildIncrementalQuery [rowNullDate] = none :=
  ⟨by simp, rfl⟩

/-- C6 (amended): the incremental filter is absent when the store is empty, and
when the store is nonempty and every stored message carries a received
timestamp the filter is "after T" with T the timestamp of the
most-recently-received stored message; but a stored message without a
timestamp (NULL date_received) can make the filter absent — or stale —
despite a nonempty store. -/
theorem buildIncrementalQuery_spec (rows : List EmailRow)
    (hall : ∀ e ∈ rows, e.date_received.isSome = true) :
    (rows = [] → buildIncrementalQuery rows = none) ∧
    (rows ≠ [] →
      ∃ r t, r ∈ rows ∧ r.date_received = some t ∧
        buildIncrementalQuery rows = some ("after:" ++ toString t) ∧
        ∀ e2 ∈ rows, ∀ t2, e2.date_received = some t2 → t2 ≤ t) := by
  constructor
  · intro h
    subst h
    rfl
  · intro hne
    cases hrows : rows with
    | nil => exact absurd hrows hne
    | cons e rest =>
      subst hrows
      have hfind : (e :: rest).find? (fun x => x.date_received.isNone) = none := by
        rw [List.find?_eq_none]
        intro x hx
        cases hx2 : x.date_received with
        | none =>
          have := hall x hx
          rw [hx2] at this
          simp at this
        | some v => simp [hx2]
      have he : e.date_received.isSome = true := hall e (List.mem_cons_self e rest)
      have hallr : ∀ x ∈ rest, x.date_received.isSome = true :=
        fun x hx => hall x (List.mem_cons_of_mem e hx)
      obtain ⟨r, hfold, hmem, hrsome, hler, hbound⟩ := foldl_maxDateRow_spec rest e hallr he
      obtain ⟨t, ht⟩ := Option.isSome_iff_exists.mp hrsome
      have hsel : selectLastSyncedEmail (e :: rest) = some r := by
        unfold selectLastSyncedEmail
        rw [hfind, List.foldl_cons]
        have : maxDateRow none e = some e := rfl
        rw [this, hfold]
      refine ⟨r, t, ?_, ht, ?_, ?_⟩
      · cases hmem with
        | inl hm => exact List.mem_cons_of_mem e hm
        | inr hm => exact hm ▸ List.mem_cons_self e rest
      · unfold buildIncrementalQuery
        rw [hsel]
        dsimp only [Option.bind]
        rw [ht]
      · intro e2 he2 t2 ht2
        have hb : e2.date_received.getD 0 ≤ r.date_received.getD 0 := by
          cases List.mem_cons.mp he2 with
          | inl hm => exact hm ▸ hler
          | inr hm => exact hbound e2 hm
        rw [ht2, ht] at hb
        simpa using hb

/-- C6 (witness): the empty store yields no filter; the store holding messages
received at 5 and 9 yields a filter with the maximal timestamp. -/
theorem buildIncrementalQuery_spec_witness :
    buildIncrementalQuery [] = none ∧
    (∃ r t, r ∈ [rowDated5, rowDated9] ∧ r.date_received = some t ∧
      buildIncrementalQuery [rowDated5, rowDated9] = some ("after:" ++ toString t) ∧
      ∀ e2 ∈ [rowDated5, rowDated9], ∀ t2, e2.date_received = some t2 → t2 ≤ t) := by
  constructor
  · exact (buildIncrementalQuery_spec [] (by intro e he; cases he)).1 rfl
  · exact (buildIncrementalQuery_spec [rowDated5, rowDated9]
      (by
        intro e he
        rcases List.mem_cons.mp he with h | h
        · subst h; rfl
        · rcases List.mem_cons.mp h with h2 | h2
          · subst h2; rfl
          · cases h2)).2 (by simp)

/-- C9: per token-refresh cycle and account: no stored expiry means no refresh
attempt and no change; a refresh is attempted exactly when time-until-expiry is
below the 600-second threshold; a successful refresh persists the new access
token and expiry and overwrites the stored refresh token only when the refresh
returned a (truthy) new one; above the threshold nothing changes. -/
theorem refresh_user_token_if_needed_spec (now : Int) (outcome : RefreshOutcome) (user : User) :
    (user.gmail_token_expiry = none →
      TokenRefreshService.refresh_user_token_if_needed now outcome user = (user, false)) ∧
    (∀ expiry, user.gmail_token_expiry = some expiry →
      ((TokenRefreshService.refresh_user_token_if_needed now outcome user).2 = true ↔
        expiry - now < TokenRefreshService.refresh_threshold)) ∧
    (∀ expiry token refresh_token expiry2, user.gmail_token_expiry = some expiry →
      expiry - now < TokenRefreshService.refresh_threshold →
      outcome = RefreshOutcome.success token refresh_token expiry2 →
      (TokenRefreshService.refresh_user_token_if_needed now outcome user).1 =
        { user with
            gmail_access_token := some token
            gmail_refresh_token :=
              if pyTruthyStr refresh_token then refresh_token else user.gmail_refresh_token
            gmail_token_expiry := expiry2 }) ∧
    (∀ expiry, user.gmail_token_expiry = some expiry →
      ¬(expiry - now < TokenRefreshService.refresh_threshold) →
      TokenRefreshService.refresh_user_token_if_needed now outcome user = (user, false)) := by
  refine ⟨?_, ?_, ?_, ?_⟩
  · intro h
    unfold TokenRefreshService.refresh_user_token_if_needed
    rw [h]
  · intro expiry h
    unfold TokenRefreshService.refresh_user_token_if_needed
    rw [h]
    dsimp only
    by_cases hlt : expiry - now < TokenRefreshService.refresh_threshold
    · rw [if_pos hlt]
      cases outcome <;> simp [hlt]
    · rw [if_neg hlt]
      simp [hlt]
  · intro expiry token refresh_token expiry2 h hlt hout
    subst hout
    unfold TokenRefreshService.refresh_user_token_if_needed
    rw [h]
    dsimp only
    rw [if_pos hlt]
  · intro expiry h hlt
    unfold TokenRefreshService.refresh_user_token_if_needed
    rw [h]
    dsimp only
    rw [if_neg hlt]

/-- C9 (witness): at time 0, a token expiring at 100 (inside the 600s
threshold) is refreshed; the rotated refresh token overwrites the stored one. -/
theorem refresh_user_token_if_needed_spec_witness :
    (TokenRefreshService.refresh_user_token_if_needed 0
        (RefreshOutcome.success "tok2" (some "ref2") (some 900)) userExample).1 =
      { userExample with
          gmail_access_token := some "tok2"
          gmail_refresh_token :=
            if pyTruthyStr (some "ref2") then some "ref2" else userExample.gmail_refresh_token
          gmail_token_expiry := some 900 } :=
  (refresh_user_token_if_needed_spec 0
      (RefreshOutcome.success "tok2" (some "ref2") (some 900)) userExample).2.2.1
    100 "tok2" (some "ref2") (some 900) rfl (by decide) rfl

/-- C1: evaluation at the failing input. With account 7 registered as active
(one session in {started, running}): the incremental entry point does not fail
— the already-active exception is swallowed by the surrounding except block and
the sync runs to completion without session tracking; and the full entry point
checks nothing and creates a second session row, leaving the account with two
sessions in {started, running}. -/
theorem single_flight_not_enforced :
    activeSessionCount stateActiveExample.sessions 7 = 1 ∧
    is_sync_active stateActiveExample 7 = true ∧
    sync_user_emails envEmptyPage 7 stateActiveExample = (stateActiveExample, .returned 0) ∧
    (sync_user_emails_full envEmptyPage 7 stateActiveExample).2 = .returned 0 ∧
    activeSessionCount (sync_user_emails_full envEmptyPage 7 stateActiveExample).1.sessions 7
      = 2 :=
  ⟨rfl, rfl, rfl, rfl, rfl⟩

theorem syncLoop_active_syncs (env : SyncEnv) (so : Option SyncSession)
    (pages : List PageResult) :
    ∀ (batchIdx : Nat) (st : OrchState) (n : Nat),
      (syncLoop env so batchIdx st n pages).1.active_syncs = st.active_syncs := by
  induction pages with
  | nil => intro i st n; rfl
  | cons pr rest ih =>
    intro i st n
    cases pr with
    | listError => rfl
    | page ids tok =>
      simp only [syncLoop]
      repeat' split
      all_goals first
        | rfl
        | exact ih _ _ _

theorem syncLoop_none_stop_flags (env : SyncEnv) (pages : List PageResult) :
    ∀ (batchIdx : Nat) (st : OrchState) (n : Nat),
      (syncLoop env none batchIdx st n pages).1.sync_stop_flags = st.sync_stop_flags := by
  induction pages with
  | nil => intro i st n; rfl
  | cons pr rest ih =>
    intro i st n
    cases pr with
    | listError => rfl
    | page ids tok =>
      simp only [syncLoop]
      repeat' split
      all_goals first
        | rfl
        | exact ih _ _ _

theorem cleanup_some_active (snap : SyncSession) (user_id : Nat) (st : OrchState) :
    is_sync_active (cleanupSyncTracking (some snap) user_id st) user_id = false := by
  unfold cleanupSyncTracking is_sync_active
  dsimp only
  split
  · split
    · exact dictContains_del_self _ _
    · exact dictContains_del_self _ _
  · next h => exact Bool.eq_false_iff.mpr h

theorem cleanup_some_flag (snap : SyncSession) (user_id : Nat) (st : OrchState)
    (ha : dictContains st.active_syncs user_id = true) :
    dictContains (cleanupSyncTracking (some snap) user_id st).sync_stop_flags snap.id
      = false := by
  unfold cleanupSyncTracking
  dsimp only
  split
  · split
    · exact dictContains_del_self _ _
    · next h2 => exact Bool.eq_false_iff.mpr h2
  · next h => exact absurd ha h

/-- C3: whatever the environment does (all loop exits: completed, stopped,
unhandled list error; session creation failing; authentication failing), once
`sync_user_emails` returns or raises, the account is no longer in the
single-flight registry and the stop-flag registry does not hold the id this
call's session was (or would have been) created under — the finally-block
cleanup runs on every path on which a session was registered. -/
theorem sync_user_emails_cleanup (env : SyncEnv) (user_id : Nat) (st : OrchState)
    (hactive : is_sync_active st user_id = false)
    (hflag : dictContains st.sync_stop_flags st.next_session_id = false) :
    is_sync_active (sync_user_emails env user_id st).1 user_id = false ∧
    dictContains (sync_user_emails env user_id st).1.sync_stop_flags st.next_session_id
      = false := by
  unfold sync_user_emails
  cases hauthb : env.authOk with
  | false =>
    simp only [hauthb, Bool.not_false, if_true]
    exact ⟨hactive, hflag⟩
  | true =>
    simp only [hauthb, Bool.not_true, Bool.false_eq_true, if_false]
    unfold startIncrementalSession
    cases hcreate : env.createSessionOk with
    | false =>
      simp only [hactive, Bool.false_eq_true, if_false, hcreate, Bool.not_false, if_true]
      constructor
      · split
        all_goals
          (show dictContains (syncLoop env none 0 st 0 env.pages).1.active_syncs user_id
              = false
           rw [syncLoop_active_syncs]
           exact hactive)
      · split
        all_goals
          (show dictContains (syncLoop env none 0 st 0 env.pages).1.sync_stop_flags
              st.next_session_id = false
           rw [syncLoop_none_stop_flags]
           exact hflag)
    | true =>
      simp only [hactive, Bool.false_eq_true, if_false, hcreate, Bool.not_true, if_false]
      constructor
      · split
        all_goals exact cleanup_some_active _ _ _
      · split
        all_goals
          (refine cleanup_some_flag _ user_id _ ?_
           simp only [syncLoop_active_syncs]
           exact dictContains_set_self _ _ _)

/-- C3 (witness): a full run from the empty registry state over a one-page
environment leaves account 7 inactive and no stop flag for session id 1. -/
theorem sync_user_emails_cleanup_witness :
    is_sync_active (sync_user_emails envEmptyPage 7 {}).1 7 = false ∧
    dictContains (sync_user_emails envEmptyPage 7 {}).1.sync_stop_flags 1 = false :=
  sync_user_emails_cleanup envEmptyPage 7 {} rfl rfl

end GmailBackup
